import Mathlib

/-!
Verification of the EA-Email-Finder two-stage verification pipeline.

The development shallowly embeds the core of `EmailChecker.py`:
the JSON payload model, the two response interpreters
(`interpret_ea_response`, `interpret_ms_response`), the retry/backoff
network probes (`check_ea_email`, `check_ms_name`, modelled as a pure
function of a trace of network events), and the orchestrating pipeline
(`process_email`).  I/O glue (argument parsing, file persistence,
printing) is out of scope, as is real networking: a probe consumes an
oracle `Nat → NetEvent` giving the outcome of each HTTP request it
would issue, and returns the probe outcome together with a log of the
sleeps and identity refreshes it performed.
-/

/- ### JSON value model

Python values produced by `r.json()` are JSON values: `null`, booleans,
numbers, strings, arrays, objects with string keys.  Numbers are
modelled as integers (no payload relevant here carries a float). -/

inductive JVal where
  | null
  | bool (b : Bool)
  | num (n : Int)
  | str (s : String)
  | arr (xs : List JVal)
  | obj (kvs : List (String × JVal))

/-- Python truthiness `bool(x)` of a JSON value: `None`, `False`, `0`,
`""`, `[]` and `{ }` are falsy, everything else truthy. -/
def pyTruthy : JVal → Bool
  | .null => false
  | .bool b => b
  | .num n => n != 0
  | .str s => s != ""
  | .arr xs => !xs.isEmpty
  | .obj kvs => !kvs.isEmpty

/-- Python `d.get(k)` on a dict: the first binding of `k`, if any
(JSON objects have no duplicate keys, so first-match is exact). -/
def jLookup (kvs : List (String × JVal)) (k : String) : Option JVal :=
  match kvs with
  | [] => none
  | (k', v) :: rest => if k' == k then some v else jLookup rest k

/-- Python `d.get(k, dflt)` on a dict. -/
def jGetD (kvs : List (String × JVal)) (k : String) (dflt : JVal) : JVal :=
  (jLookup kvs k).getD dflt

/-- Escape of one character inside a JSON string literal, as
`json.dumps` does for the characters exercised by this program
(backslash, quote and common control characters; `\uXXXX` escapes of
other control characters are outside the model). -/
def jEscapeChar (c : Char) : String :=
  if c = '\\' then "\\\\"
  else if c = '"' then "\\\""
  else if c = '\n' then "\\n"
  else if c = '\t' then "\\t"
  else if c = '\r' then "\\r"
  else String.singleton c

/-- Escape of a whole string for `json.dumps`. -/
def jEscape (s : String) : String := String.join (s.toList.map jEscapeChar)

mutual

/-- Model of Python `json.dumps(v)` with its default separators:
objects as key/value pairs joined by a comma-space with a colon-space
after each key, arrays joined by comma-space, `true`/`false`/`null`
lowercase, strings quoted and escaped. -/
def dumpJ : JVal → String
  | .null => "null"
  | .bool b => if b then "true" else "false"
  | .num n => toString n
  | .str s => "\"" ++ jEscape s ++ "\""
  | .arr xs => "[" ++ dumpArr xs ++ "]"
  | .obj kvs => "\x7b" ++ dumpObj kvs ++ "\x7d"

/-- Elements of a JSON array rendered by `dumpJ`, comma-space
separated. -/
def dumpArr : List JVal → String
  | [] => ""
  | [x] => dumpJ x
  | x :: y :: rest => dumpJ x ++ ", " ++ dumpArr (y :: rest)

/-- Members of a JSON object rendered by `dumpJ`, comma-space
separated, colon-space after each quoted key. -/
def dumpObj : List (String × JVal) → String
  | [] => ""
  | [(k, v)] => "\"" ++ jEscape k ++ "\": " ++ dumpJ v
  | (k, v) :: m :: rest =>
      "\"" ++ jEscape k ++ "\": " ++ dumpJ v ++ ", " ++ dumpObj (m :: rest)

end

/-- Python `s.lower()` (ASCII case folding, which covers every string
this program manipulates). -/
def pyLower (s : String) : String := String.mk (s.data.map Char.toLower)

/-- Containment of one character list in another as a contiguous
sublist. -/
def subList (needle : List Char) : List Char → Bool
  | [] => needle.isEmpty
  | c :: cs => needle.isPrefixOf (c :: cs) || subList needle cs

/-- Python substring test `needle in hay`. -/
def strIn (needle hay : String) : Bool := subList needle.toList hay.toList

/-- Python identity test `x is False` for a value looked up with
`d.get`: true exactly for the boolean `False`. -/
def isBoolFalse : Option JVal → Bool
  | some (.bool false) => true
  | _ => false

/-- Python identity test `x is True` for a value looked up with
`d.get`: true exactly for the boolean `True`. -/
def isBoolTrue : Option JVal → Bool
  | some (.bool true) => true
  | _ => false

/- ### Response interpreters -/

/-- Verdict of the service-A (EA existence) interpreter: the
`exists'` field models the Python dict key `"exists"` (an `Option
Bool` so the same shape covers the tri-state decision of the data
model; the EA interpreter itself only ever emits concrete booleans),
`reason` the key `"reason"`. -/
structure EAVerdict where
  exists' : Option Bool
  reason : String
deriving DecidableEq, Repr

/-- Verdict of the service-B (Microsoft availability) interpreter:
`available` models the Python dict key `"available"` whose value may
be `True`, `False` or `None` (unknown). -/
structure MSVerdict where
  available : Option Bool
  reason : String
deriving DecidableEq, Repr

/-- Embedding of `EmailChecker.interpret_ea_response`.  Returns `none`
when the Python code raises: `body.get("message", "").lower()` raises
`AttributeError` whenever the dict carries a non-string under
`"message"`; every other path returns a verdict. -/
def interpret_ea_response (body : JVal) : Option EAVerdict :=
  match body with
  | .obj kvs =>
    match jGetD kvs "message" (.str "") with
    | .str m =>
      let msg := pyLower m
      if strIn "register_email_existed" msg || msg == "register_email_existed" then
        some ⟨some true, "EA message: register_email_existed"⟩
      else if strIn "register_email_not_existed" msg || msg == "register_email_not_existed" then
        some ⟨some false, "EA message: register_email_not_existed"⟩
      else
        let status := jLookup kvs "status"
        if isBoolFalse status && strIn "existed" msg then
          some ⟨some true, "status=false with existed message"⟩
        else if isBoolTrue status && strIn "not_existed" msg then
          some ⟨some false, "status=true with not_existed message"⟩
        else
          let text := pyLower (dumpJ (.obj kvs))
          if strIn "existed" text && !strIn "not" text then
            some ⟨some true, "text_heuristic_positive"⟩
          else if strIn "not_existed" text || strIn "does not exist" text then
            some ⟨some false, "text_heuristic_negative"⟩
          else
            some ⟨some false, "no_clear_indicator"⟩
    | _ => none
  | _ => some ⟨some false, "not_a_dict"⟩

/-- Embedding of `EmailChecker.interpret_ms_response`.  Total: no
path of the Python function can raise on a JSON value. -/
def interpret_ms_response (body : JVal) : MSVerdict :=
  match body with
  | .obj kvs =>
    match jLookup kvs "isAvailable" with
    | some v => ⟨some (pyTruthy v), "field:isAvailable"⟩
    | none =>
      if pyTruthy (jGetD kvs "suggestions" .null) then
        ⟨some false, "has_suggestions"⟩
      else
        let text := pyLower (dumpJ (.obj kvs))
        if strIn "notavailable" text || strIn "already" text || strIn "taken" text then
          ⟨some false, "text_negative"⟩
        else if strIn "available" text && !strIn "not" text then
          ⟨some true, "text_positive"⟩
        else
          ⟨none, "unknown"⟩
  | _ => ⟨none, "not_a_dict"⟩

/-- Re-serialization of an EA verdict as the Python dict
`\x7b"exists": ..., "reason": ...\x7d` it is in the source (insertion
order: `exists` first). -/
def eaVerdictToJVal (v : EAVerdict) : JVal :=
  .obj [("exists", match v.exists' with
                   | some b => .bool b
                   | none => .null),
        ("reason", .str v.reason)]


/- ### Network probe model

A probe is a pure function of a trace `Nat → NetEvent` giving the
outcome of each HTTP request it would issue (attempt 0, 1, 2). -/

/-- Body of an HTTP response: either `r.json()` succeeds with a JSON
value or raises, in which case `r.text` is used. -/
inductive HttpBody where
  | json (v : JVal)
  | raw (text : String)

/-- Outcome of one HTTP request the probe issues: a transport-level
exception, or a response with a status code and headers. -/
inductive NetEvent where
  | exn
  | resp (status : Nat) (headers : List (String × String)) (body : HttpBody)

/-- Raw outcome envelope of a probe, the Python dict with keys
`ok`, `response` and `meta` (the latter holding `status_code` and
`headers`). -/
structure ProbeOutcome where
  ok : Bool
  response : JVal
  metaStatus : Nat
  metaHeaders : List (String × String)

/-- Envelope returned once all three attempts are exhausted:
`ok=False`, empty response dict, status code 0, empty headers. -/
def failedOutcome : ProbeOutcome :=
  { ok := false, response := .obj [], metaStatus := 0, metaHeaders := [] }

/-- Sleep performed by a probe: `rateLimit n` is the
`time.sleep(reset_time)` of the HTTP-429 branch; `backoff` is the
`_delay_retry()` sleep, a draw from `random.uniform(3.0, 5.0)`. -/
inductive SleepKind where
  | rateLimit (secs : Nat)
  | backoff
deriving DecidableEq, Repr

/-- Lower endpoint in seconds of the `_delay_retry` backoff draw
`random.uniform(3.0, 5.0)`. -/
def delayRetryMin : ℚ := 3

/-- Upper endpoint in seconds of the `_delay_retry` backoff draw
`random.uniform(3.0, 5.0)`. -/
def delayRetryMax : ℚ := 5

/-- Value of Python `int(s)` on a plain digit string; `none` when the
429 branch raises instead of sleeping (`int` of a non-numeric string
raises `ValueError`; signed or padded numerals are outside the
model). -/
def pyParseNat (s : String) : Option Nat :=
  if !s.data.isEmpty && s.data.all Char.isDigit then
    some (s.data.foldl (fun n c => n * 10 + (c.toNat - 48)) 0)
  else
    none

/-- Lookup of an HTTP header value by exact name (the code reads
`ratelimit-reset` from the `requests` header mapping). -/
def hdrLookup (hdrs : List (String × String)) (k : String) : Option String :=
  match hdrs with
  | [] => none
  | (k', v) :: rest => if k' == k then some v else hdrLookup rest k

/-- Seconds the 429 branch sleeps:
`int(r.headers.get('ratelimit-reset', 60))`, i.e. 60 when the header
is absent; `none` when the branch raises (non-numeric header value),
which the surrounding `except` turns into a backoff retry. -/
def resetFromHeaders (hdrs : List (String × String)) : Option Nat :=
  match hdrLookup hdrs "ratelimit-reset" with
  | none => some 60
  | some s => pyParseNat s

/-- Response body as the probe stores it: the parsed JSON, or the
fallback dict wrapping the first 1000 characters of `r.text`. -/
def parsedBody : HttpBody → JVal
  | .json v => v
  | .raw t => .obj [("raw_text", .str (String.mk (t.data.take 1000)))]

/-- Classification of one iteration of the shared retry loop:
return with an envelope, sleep the rate-limit delay and continue,
refresh-backoff-continue, or backoff-continue. -/
inductive StepRes where
  | success (out : ProbeOutcome)
  | retryRate (secs : Nat)
  | retryFail
  | retryExn

/-- One iteration of the `for attempt in range(3)` body of
`check_ea_email` / `check_ms_name`: HTTP 429 sleeps the
server-directed time and consumes an attempt (`continue`); HTTP 200
returns `ok=True` with the parsed body and response meta; any other
status triggers the identity refresh plus a backoff sleep; a
transport-level exception (or a 429 whose malformed header makes the
branch raise) triggers only the backoff sleep. -/
def attemptStep : NetEvent → StepRes
  | .exn => .retryExn
  | .resp status hdrs body =>
    if status == 429 then
      match resetFromHeaders hdrs with
      | some secs => .retryRate secs
      | none => .retryExn
    else if status == 200 then
      .success { ok := true, response := parsedBody body,
                 metaStatus := status, metaHeaders := hdrs }
    else
      .retryFail

/-- Boolean test for an attempt on which the loop returns. -/
def stepSucceeds (ev : NetEvent) : Bool :=
  match attemptStep ev with
  | .success _ => true
  | _ => false

/-- Result of a whole probe call: the returned envelope plus a log of
the effects the loop performed — HTTP requests issued, sleeps in
order, identity-refresh invocations. -/
structure ProbeResult where
  outcome : ProbeOutcome
  attemptsMade : Nat
  sleeps : List SleepKind
  refreshes : Nat

/-- The retry loop of both probes, processing attempts
`idx, idx + 1, ...` with `fuel` iterations left; running out of fuel
returns `failedOutcome` (no exception escapes the loop). -/
def probeLoopAux (events : Nat → NetEvent) (idx : Nat) : Nat → ProbeResult
  | 0 => { outcome := failedOutcome, attemptsMade := 0, sleeps := [], refreshes := 0 }
  | fuel + 1 =>
    match attemptStep (events idx) with
    | .success out =>
        { outcome := out, attemptsMade := 1, sleeps := [], refreshes := 0 }
    | .retryRate secs =>
        let rest := probeLoopAux events (idx + 1) fuel
        { outcome := rest.outcome, attemptsMade := rest.attemptsMade + 1,
          sleeps := .rateLimit secs :: rest.sleeps, refreshes := rest.refreshes }
    | .retryFail =>
        let rest := probeLoopAux events (idx + 1) fuel
        { outcome := rest.outcome, attemptsMade := rest.attemptsMade + 1,
          sleeps := .backoff :: rest.sleeps, refreshes := rest.refreshes + 1 }
    | .retryExn =>
        let rest := probeLoopAux events (idx + 1) fuel
        { outcome := rest.outcome, attemptsMade := rest.attemptsMade + 1,
          sleeps := .backoff :: rest.sleeps, refreshes := rest.refreshes }

/-- Embedding of `EmailChecker.check_ea_email`: up to 3 attempts
against the EA existence endpoint; `refreshes` counts
`refresh_ea_cookies` invocations. -/
def check_ea_email (events : Nat → NetEvent) : ProbeResult :=
  probeLoopAux events 0 3

/-- Embedding of `EmailChecker.check_ms_name`.  The Python function's
retry/backoff/rate-limit structure is line-for-line identical to
`check_ea_email` (it differs only in URL, HTTP method, request
headers, timeout, and in invoking `refresh_ms_cookies` instead of
`refresh_ea_cookies`), so it is the same function of its event trace;
`refreshes` counts `refresh_ms_cookies` invocations. -/
def check_ms_name (events : Nat → NetEvent) : ProbeResult :=
  probeLoopAux events 0 3

/- ### Verification pipeline -/

/-- Python truthiness of the `exists` value of an EA verdict, as
tested by `not ea_interp.get("exists")`. -/
def pyTruthyOB : Option Bool → Bool
  | none => false
  | some b => b

/-- Python `email.strip()`: whitespace removed from both ends. -/
def pyStrip (s : String) : String :=
  String.mk (((s.data.dropWhile Char.isWhitespace).reverse.dropWhile
    Char.isWhitespace).reverse)

/-- Folder (bucket) for addresses not linked to an EA account. -/
def DIR_EA_NOT_AVAILABLE : String := "ea_not_available"

/-- Folder (bucket) for EA-linked addresses whose Microsoft name is
not available. -/
def DIR_NOT_AVAILABLE_EMAIL : String := "not_available_email"

/-- Folder (bucket) for EA-linked addresses whose Microsoft name is
available. -/
def DIR_AVAILABLE : String := "available"

/-- The `result` dict built by `process_email`: one
VerificationRecord.  The timestamp field is out of the model; the
service-B fields are `none` where the Python dict keeps `None`. -/
structure VerificationRecord where
  email : String
  ea_check : ProbeOutcome
  ea_interpret : EAVerdict
  ms_check : Option ProbeOutcome
  ms_interpret : Option MSVerdict
  final_folder : String
  note : String

/-- A finished record together with the number of `check_ms_name`
invocations performed while producing it. -/
structure PipelineResult where
  record : VerificationRecord
  msProbeCalls : Nat

/-- Embedding of `EmailChecker.process_email` over the two event
traces; `none` when the Python function raises (only
`interpret_ea_response` on a body with a non-string `message` can
cause this), in which case no record is produced. -/
def process_email (email : String) (eaEvents msEvents : Nat → NetEvent) :
    Option PipelineResult :=
  let addr := pyStrip email
  let ea := check_ea_email eaEvents
  match interpret_ea_response ea.outcome.response with
  | none => none
  | some eaInterp =>
    if !ea.outcome.ok || !pyTruthyOB eaInterp.exists' then
      some { record := { email := addr, ea_check := ea.outcome,
                         ea_interpret := eaInterp,
                         ms_check := none, ms_interpret := none,
                         final_folder := DIR_EA_NOT_AVAILABLE,
                         note := "EA not linked or error" },
             msProbeCalls := 0 }
    else
      let ms := check_ms_name msEvents
      let msInterp := interpret_ms_response ms.outcome.response
      if msInterp.available == some true then
        some { record := { email := addr, ea_check := ea.outcome,
                           ea_interpret := eaInterp,
                           ms_check := some ms.outcome,
                           ms_interpret := some msInterp,
                           final_folder := DIR_AVAILABLE,
                           note := "EA linked and Microsoft available" },
               msProbeCalls := 1 }
      else
        some { record := { email := addr, ea_check := ea.outcome,
                           ea_interpret := eaInterp,
                           ms_check := some ms.outcome,
                           ms_interpret := some msInterp,
                           final_folder := DIR_NOT_AVAILABLE_EMAIL,
                           note := "EA linked but Microsoft not available" },
               msProbeCalls := 1 }

/- ### Helper lemmas -/

/-- An attempt on which the loop returns carries an `ok=True`
envelope. -/
theorem attemptStep_success_ok (ev : NetEvent) (out : ProbeOutcome)
    (h : attemptStep ev = .success out) : out.ok = true := by
  cases ev with
  | exn => simp [attemptStep] at h
  | resp status hdrs body =>
    simp only [attemptStep] at h
    split at h
    · split at h <;> simp_all
    · split at h
      · simp only [StepRes.success.injEq] at h
        subst h
        rfl
      · simp_all

/-- A probe that does not return `ok=True` returned the whole
`failedOutcome` envelope. -/
theorem probeLoopAux_not_ok (events : Nat → NetEvent) (idx : Nat) (fuel : Nat)
    (h : (probeLoopAux events idx fuel).outcome.ok = false) :
    (probeLoopAux events idx fuel).outcome = failedOutcome := by
  induction fuel generalizing idx with
  | zero => rfl
  | succ n ih =>
    unfold probeLoopAux at h ⊢
    cases hs : attemptStep (events idx) with
    | success out =>
      simp only [hs] at h ⊢
      exact absurd (attemptStep_success_ok _ _ hs) (by simp [h])
    | retryRate secs => simp only [hs] at h ⊢; exact ih _ h
    | retryFail => simp only [hs] at h ⊢; exact ih _ h
    | retryExn => simp only [hs] at h ⊢; exact ih _ h

/-- The loop never issues more requests than it has fuel for. -/
theorem probeLoopAux_attempts_le (events : Nat → NetEvent) (idx fuel : Nat) :
    (probeLoopAux events idx fuel).attemptsMade ≤ fuel := by
  induction fuel generalizing idx with
  | zero => exact Nat.le_refl _
  | succ n ih =>
    unfold probeLoopAux
    cases attemptStep (events idx) with
    | success out => exact Nat.succ_le_succ (Nat.zero_le _)
    | retryRate secs => exact Nat.succ_le_succ (ih _)
    | retryFail => exact Nat.succ_le_succ (ih _)
    | retryExn => exact Nat.succ_le_succ (ih _)

/-- Interpreting the empty dict (the `response` of a failed probe)
defaults to the negative `no_clear_indicator` verdict. -/
theorem interpret_ea_empty_dict :
    interpret_ea_response (.obj []) = some ⟨some false, "no_clear_indicator"⟩ := rfl

/-- Python falsiness of the `exists` value is exactly "not the
boolean True". -/
theorem pyTruthyOB_eq_false_iff (x : Option Bool) :
    pyTruthyOB x = false ↔ x ≠ some true := by
  cases x with
  | none => simp [pyTruthyOB]
  | some b => cases b <;> simp [pyTruthyOB]

/-- Python truthiness of the `exists` value is exactly "the boolean
True". -/
theorem pyTruthyOB_eq_true_iff (x : Option Bool) :
    pyTruthyOB x = true ↔ x = some true := by
  cases x with
  | none => simp [pyTruthyOB]
  | some b => cases b <;> simp [pyTruthyOB]

/-- C1: for every address processed by the pipeline, the terminal
bucket is `NOT_LINKED` (`ea_not_available`) exactly when Probe A
failed outright or the interpreted Verdict A decision is not true;
otherwise the bucket is `LINKED_AND_AVAILABLE` (`available`) exactly
when the interpreted Verdict B decision is exactly true, and
`LINKED_BUT_UNAVAILABLE` (`not_available_email`) for any other
Verdict B decision. -/
theorem pipeline_bucket_classification (email : String)
    (eaEvents msEvents : Nat → NetEvent) (res : PipelineResult)
    (h : process_email email eaEvents msEvents = some res) :
    (res.record.final_folder = DIR_EA_NOT_AVAILABLE ↔
      (res.record.ea_check.ok = false ∨ res.record.ea_interpret.exists' ≠ some true))
    ∧ (res.record.final_folder ≠ DIR_EA_NOT_AVAILABLE →
        ∃ mv, res.record.ms_interpret = some mv
          ∧ (res.record.final_folder = DIR_AVAILABLE ↔ mv.available = some true)
          ∧ (res.record.final_folder = DIR_NOT_AVAILABLE_EMAIL ↔ mv.available ≠ some true)) := by
  simp only [process_email] at h
  split at h
  · exact absurd h (by simp)
  · rename_i eaInterp heq
    split at h
    · rename_i hc
      injection h with h
      subst h
      simp only [Bool.or_eq_true, Bool.not_eq_true'] at hc
      refine ⟨?_, fun hne => absurd rfl hne⟩
      simp only [true_iff]
      rcases hc with hc | hc
      · exact Or.inl hc
      · exact Or.inr ((pyTruthyOB_eq_false_iff _).mp hc)
    · rename_i hc
      rw [Bool.not_eq_true, Bool.or_eq_false_iff, Bool.not_eq_false',
        Bool.not_eq_false'] at hc
      obtain ⟨hok, htruthy⟩ := hc
      have hex : eaInterp.exists' = some true := (pyTruthyOB_eq_true_iff _).mp htruthy
      split at h
      · rename_i hav
        injection h with h
        subst h
        rw [beq_iff_eq] at hav
        constructor
        · simp only [show DIR_AVAILABLE ≠ DIR_EA_NOT_AVAILABLE from by decide,
            false_iff]
          push_neg
          exact ⟨by simp [hok], hex⟩
        · intro _
          refine ⟨_, rfl, ?_, ?_⟩
          · simp [hav]
          · simp only [show DIR_AVAILABLE ≠ DIR_NOT_AVAILABLE_EMAIL from by decide,
              false_iff]
            simp [hav]
      · rename_i hav
        injection h with h
        subst h
        have hav' :
            (interpret_ms_response (check_ms_name msEvents).outcome.response).available ≠
              some true := by
          intro hcontra
          exact hav (by simp [hcontra])
        constructor
        · simp only [show DIR_NOT_AVAILABLE_EMAIL ≠ DIR_EA_NOT_AVAILABLE from by decide,
            false_iff]
          push_neg
          exact ⟨by simp [hok], hex⟩
        · intro _
          refine ⟨_, rfl, ?_, ?_⟩
          · simp only [show DIR_NOT_AVAILABLE_EMAIL ≠ DIR_AVAILABLE from by decide,
              false_iff]
            exact hav'
          · simp only [true_iff]
            exact hav'

/-- Interpreting the response of a failed Probe A yields the negative
`no_clear_indicator` verdict (a failed probe carries the empty dict as
its response). -/
theorem check_ea_email_fail_interp (events : Nat → NetEvent)
    (h : (check_ea_email events).outcome.ok = false) :
    interpret_ea_response (check_ea_email events).outcome.response =
      some ⟨some false, "no_clear_indicator"⟩ := by
  have h2 : (check_ea_email events).outcome = failedOutcome :=
    probeLoopAux_not_ok _ _ _ h
  rw [h2]
  rfl

/-- C2: for every address, if Verdict A's decision is true then Probe
B is invoked exactly once, and if Verdict A's decision is not true
(including when Probe A exhausts its attempts and fails) then Probe B
is never invoked and the bucket is `NOT_LINKED`. -/
theorem verdictA_gates_probeB (email : String)
    (eaEvents msEvents : Nat → NetEvent) (res : PipelineResult)
    (h : process_email email eaEvents msEvents = some res) :
    (res.record.ea_interpret.exists' = some true → res.msProbeCalls = 1)
    ∧ (res.record.ea_interpret.exists' ≠ some true →
        res.msProbeCalls = 0 ∧ res.record.final_folder = DIR_EA_NOT_AVAILABLE)
    ∧ (res.record.ea_check.ok = false →
        res.msProbeCalls = 0 ∧ res.record.final_folder = DIR_EA_NOT_AVAILABLE) := by
  simp only [process_email] at h
  split at h
  · exact absurd h (by simp)
  · rename_i eaInterp heq
    split at h
    · rename_i hc
      injection h with h
      subst h
      simp only [Bool.or_eq_true, Bool.not_eq_true'] at hc
      refine ⟨?_, fun _ => ⟨rfl, rfl⟩, fun _ => ⟨rfl, rfl⟩⟩
      intro hex
      rcases hc with hok | htr
      · rw [check_ea_email_fail_interp eaEvents hok] at heq
        injection heq with heq
        rw [← heq] at hex
        exact absurd hex (by simp)
      · exact absurd hex ((pyTruthyOB_eq_false_iff _).mp htr)
    · rename_i hc
      rw [Bool.not_eq_true, Bool.or_eq_false_iff, Bool.not_eq_false',
        Bool.not_eq_false'] at hc
      obtain ⟨hok, htruthy⟩ := hc
      have hex : eaInterp.exists' = some true := (pyTruthyOB_eq_true_iff _).mp htruthy
      split at h <;>
      · injection h with h
        subst h
        refine ⟨fun _ => rfl, fun hne => absurd hex hne, fun hf => ?_⟩
        have hf' : (check_ea_email eaEvents).outcome.ok = false := hf
        exact absurd hok (by simp [hf'])

/-- C9: every VerificationRecord produced by the pipeline carries
exactly one bucket from the closed set of three folder names, and its
service-B probe and verdict fields are populated (non-`None`) if and
only if that bucket is not `NOT_LINKED`. -/
theorem record_bucket_invariant (email : String)
    (eaEvents msEvents : Nat → NetEvent) (res : PipelineResult)
    (h : process_email email eaEvents msEvents = some res) :
    (res.record.final_folder = DIR_EA_NOT_AVAILABLE ∨
      res.record.final_folder = DIR_NOT_AVAILABLE_EMAIL ∨
      res.record.final_folder = DIR_AVAILABLE)
    ∧ (res.record.ms_check.isSome = true ↔
        res.record.final_folder ≠ DIR_EA_NOT_AVAILABLE)
    ∧ (res.record.ms_interpret.isSome = true ↔
        res.record.final_folder ≠ DIR_EA_NOT_AVAILABLE) := by
  simp only [process_email] at h
  split at h
  · exact absurd h (by simp)
  · split at h
    · injection h with h
      subst h
      exact ⟨Or.inl rfl, by simp, by simp⟩
    · split at h <;>
      · injection h with h
        subst h
        refine ⟨by simp, ?_, ?_⟩ <;>
          simp [DIR_AVAILABLE, DIR_NOT_AVAILABLE_EMAIL, DIR_EA_NOT_AVAILABLE]

/-- C10 (amended): on every input body on which Interpreter A returns
at all, the verdict's decision is a concrete boolean together with a
non-empty reason — never the unknown member of the tri-state verdict;
the empty-dict response of a failed probe yields decision false with
reason `no_clear_indicator`, so a failed Probe A can never be
interpreted as a true verdict.  (The unamended "for every input body"
fails: a dict whose `message` value is not a string makes the Python
interpreter raise instead of returning, see the counterexample.) -/
theorem interpret_ea_no_unknown :
    (∀ body v, interpret_ea_response body = some v →
      (∃ b, v.exists' = some b) ∧ v.reason ≠ "")
    ∧ interpret_ea_response (.obj []) = some ⟨some false, "no_clear_indicator"⟩
    ∧ (∀ ev, (check_ea_email ev).outcome.ok = false →
        interpret_ea_response (check_ea_email ev).outcome.response =
          some ⟨some false, "no_clear_indicator"⟩) := by
  refine ⟨?_, rfl, fun ev h => check_ea_email_fail_interp ev h⟩
  intro body v h
  cases body <;> simp only [interpret_ea_response] at h
  case obj kvs =>
    split at h
    · repeat' split at h
      all_goals (injection h with h; subst h; exact ⟨⟨_, rfl⟩, by decide⟩)
    · exact absurd h (by simp)
  all_goals (injection h with h; subst h; exact ⟨⟨_, rfl⟩, by decide⟩)

/-- C10 counterexample: the body with a non-string `message` value on
which `interpret_ea_response` raises `AttributeError`
(`body.get("message", "").lower()` on the integer 5) instead of
returning a verdict, refuting "for every input body (dict or not),
Interpreter A returns a verdict". -/
theorem interpret_ea_totality_counterexample :
    interpret_ea_response (.obj [("message", .num 5)]) = none := rfl

/-- C8 counterexample: the body on which Interpreter A reaches the
positive full-text heuristic fallback, yet re-running the interpreter
on the re-serialized verdict flips the decision to false — the
serialized verdict contains the substring "exists" but not "existed",
so the re-run falls through to `no_clear_indicator`.  This refutes the
claim that every heuristic fallback verdict is idempotent. -/
theorem heuristic_idempotence_counterexample :
    interpret_ea_response (.obj [("m", .str "existed")]) =
      some ⟨some true, "text_heuristic_positive"⟩
    ∧ interpret_ea_response (eaVerdictToJVal ⟨some true, "text_heuristic_positive"⟩) =
      some ⟨some false, "no_clear_indicator"⟩ := ⟨rfl, rfl⟩

/-- C8 (amended): for every body on which Interpreter A reaches a
heuristic fallback verdict with decision false (reasons
`text_heuristic_negative` or `no_clear_indicator`), re-running the
interpreter on the re-serialized verdict yields the same decision;
the positive heuristic fallback (`text_heuristic_positive`) is not
idempotent — re-running it yields decision false (see the
counterexample). -/
theorem heuristic_fallback_negative_idempotent (body : JVal) (v : EAVerdict)
    (h : interpret_ea_response body = some v)
    (hr : v.reason = "text_heuristic_negative" ∨ v.reason = "no_clear_indicator") :
    ∃ w, interpret_ea_response (eaVerdictToJVal v) = some w
      ∧ w.exists' = v.exists' := by
  have hv : v.exists' = some false := by
    cases body <;> simp only [interpret_ea_response] at h
    case obj kvs =>
      split at h
      · repeat' split at h
        all_goals
          (injection h with h; subst h;
           first
             | rfl
             | (rcases hr with hr | hr <;> exact absurd hr (by decide)))
      · exact absurd h (by simp)
    all_goals
      (injection h with h; subst h;
       rcases hr with hr | hr <;> exact absurd hr (by decide))
  obtain ⟨ve, vr⟩ := v
  simp only at hv hr
  subst hv
  rcases hr with hr | hr <;> subst hr <;>
    exact ⟨⟨some false, "no_clear_indicator"⟩, rfl, rfl⟩

/-- C3: Interpreter A maps the genuine EA payloads to the documented
verdicts — status false with message `register_email_existed` gives a
true decision with reason `EA message: register_email_existed`, and
status true with message `register_email_not_existed` gives a false
decision. -/
theorem interpret_ea_message_examples :
    interpret_ea_response (.obj [("status", .bool false),
        ("message", .str "register_email_existed")]) =
      some ⟨some true, "EA message: register_email_existed"⟩
    ∧ interpret_ea_response (.obj [("status", .bool true),
        ("message", .str "register_email_not_existed")]) =
      some ⟨some false, "EA message: register_email_not_existed"⟩ := ⟨rfl, rfl⟩

/-- C4: for every structured (dict) body given to Interpreter B, an
explicit `isAvailable` boolean field is used directly as the verdict,
and otherwise a non-empty list of suggestions forces
`available=false`; in particular the two concrete example payloads of
the specification. -/
theorem interpret_ms_isAvailable_and_suggestions :
    (∀ kvs b, jLookup kvs "isAvailable" = some (.bool b) →
      interpret_ms_response (.obj kvs) = ⟨some b, "field:isAvailable"⟩)
    ∧ (∀ kvs (x : JVal) (xs : List JVal),
        jLookup kvs "isAvailable" = none →
        jLookup kvs "suggestions" = some (.arr (x :: xs)) →
        interpret_ms_response (.obj kvs) = ⟨some false, "has_suggestions"⟩)
    ∧ interpret_ms_response (.obj [("isAvailable", .bool true)]) =
        ⟨some true, "field:isAvailable"⟩
    ∧ interpret_ms_response (.obj [("suggestions", .arr [.str "a@b.com"])]) =
        ⟨some false, "has_suggestions"⟩ := by
  refine ⟨?_, ?_, rfl, rfl⟩
  · intro kvs b h
    simp [interpret_ms_response, h, pyTruthy]
  · intro kvs x xs h1 h2
    simp [interpret_ms_response, h1, h2, jGetD, pyTruthy]

/-- C4 witness: the explicit `isAvailable` rule evaluated on the
example payload. -/
theorem interpret_ms_isAvailable_and_suggestions_witness :
    interpret_ms_response (.obj [("isAvailable", .bool true)]) =
      ⟨some true, "field:isAvailable"⟩ :=
  interpret_ms_isAvailable_and_suggestions.1 [("isAvailable", .bool true)] true rfl

/-- Unfolding of the loop on a rate-limited attempt: sleep the
server-directed time, then continue with the next attempt. -/
theorem probeLoopAux_retryRate (events : Nat → NetEvent) (idx fuel n : Nat)
    (h : attemptStep (events idx) = .retryRate n) :
    probeLoopAux events idx (fuel + 1) =
      { outcome := (probeLoopAux events (idx + 1) fuel).outcome,
        attemptsMade := (probeLoopAux events (idx + 1) fuel).attemptsMade + 1,
        sleeps := .rateLimit n :: (probeLoopAux events (idx + 1) fuel).sleeps,
        refreshes := (probeLoopAux events (idx + 1) fuel).refreshes } := by
  simp [probeLoopAux, h]

/-- Unfolding of the loop on a failed-status attempt: refresh the
identity, sleep the backoff, then continue with the next attempt. -/
theorem probeLoopAux_retryFail (events : Nat → NetEvent) (idx fuel : Nat)
    (h : attemptStep (events idx) = .retryFail) :
    probeLoopAux events idx (fuel + 1) =
      { outcome := (probeLoopAux events (idx + 1) fuel).outcome,
        attemptsMade := (probeLoopAux events (idx + 1) fuel).attemptsMade + 1,
        sleeps := .backoff :: (probeLoopAux events (idx + 1) fuel).sleeps,
        refreshes := (probeLoopAux events (idx + 1) fuel).refreshes + 1 } := by
  simp [probeLoopAux, h]

/-- Unfolding of the loop on a transport-exception attempt: sleep the
backoff (no identity refresh), then continue with the next attempt. -/
theorem probeLoopAux_retryExn (events : Nat → NetEvent) (idx fuel : Nat)
    (h : attemptStep (events idx) = .retryExn) :
    probeLoopAux events idx (fuel + 1) =
      { outcome := (probeLoopAux events (idx + 1) fuel).outcome,
        attemptsMade := (probeLoopAux events (idx + 1) fuel).attemptsMade + 1,
        sleeps := .backoff :: (probeLoopAux events (idx + 1) fuel).sleeps,
        refreshes := (probeLoopAux events (idx + 1) fuel).refreshes } := by
  simp [probeLoopAux, h]

/-- C5: a probe attempt that receives HTTP 429 reads the
server-provided reset delay from the `ratelimit-reset` header (60
seconds when the header is absent), sleeps exactly that long, and
then retries — continuing with the remaining two of the three
attempts rather than failing immediately — and these rate-limit
retries are bounded by the same outer attempt count of 3 as generic
failures.  The statement covers both probes, which share the loop. -/
theorem rate_limited_attempt_sleeps_and_retries (events : Nat → NetEvent)
    (hdrs : List (String × String)) (body : HttpBody) (n : Nat)
    (hev : events 0 = .resp 429 hdrs body)
    (hn : resetFromHeaders hdrs = some n) :
    (hdrLookup hdrs "ratelimit-reset" = none → n = 60)
    ∧ check_ea_email events =
        { outcome := (probeLoopAux events 1 2).outcome,
          attemptsMade := (probeLoopAux events 1 2).attemptsMade + 1,
          sleeps := .rateLimit n :: (probeLoopAux events 1 2).sleeps,
          refreshes := (probeLoopAux events 1 2).refreshes }
    ∧ check_ms_name events = check_ea_email events
    ∧ (check_ea_email events).attemptsMade ≤ 3 := by
  have hstep : attemptStep (events 0) = .retryRate n := by
    rw [hev]
    simp [attemptStep, hn]
  refine ⟨?_, ?_, rfl, probeLoopAux_attempts_le events 0 3⟩
  · intro habs
    simp [resetFromHeaders, habs] at hn
    omega
  · exact probeLoopAux_retryRate events 0 2 n hstep

/-- C6 counterexample: a run whose three attempts all end in
transport-level exceptions performs three backoff sleeps and zero
identity refreshes, refuting the claim that a transport-level
exception triggers an identity refresh via the Session/Identity
Manager (the Python `except` branch only calls `_delay_retry()`;
`refresh_ea_cookies()` is called only on a non-200 status). -/
theorem exception_attempts_never_refresh_counterexample :
    (check_ea_email (fun _ => NetEvent.exn)).attemptsMade = 3
    ∧ (check_ea_email (fun _ => NetEvent.exn)).sleeps =
        [.backoff, .backoff, .backoff]
    ∧ (check_ea_email (fun _ => NetEvent.exn)).refreshes = 0 := ⟨rfl, rfl, rfl⟩

/-- C6 (amended): a probe attempt that ends in a non-200, non-429
HTTP status triggers an identity refresh via the Session/Identity
Manager, waits a randomized backoff interval drawn from
`random.uniform(3.0, 5.0)`, and retries, counting toward the bound of
3; a transport-level exception waits the same backoff and retries
(also counting toward the bound) but does not trigger an identity
refresh. -/
theorem failed_status_refreshes_exception_does_not (events : Nat → NetEvent)
    (status : Nat) (hdrs : List (String × String)) (body : HttpBody)
    (hev : events 0 = .resp status hdrs body)
    (h429 : status ≠ 429) (h200 : status ≠ 200) :
    check_ea_email events =
      { outcome := (probeLoopAux events 1 2).outcome,
        attemptsMade := (probeLoopAux events 1 2).attemptsMade + 1,
        sleeps := .backoff :: (probeLoopAux events 1 2).sleeps,
        refreshes := (probeLoopAux events 1 2).refreshes + 1 }
    ∧ (∀ events2 : Nat → NetEvent, events2 0 = NetEvent.exn →
        check_ea_email events2 =
          { outcome := (probeLoopAux events2 1 2).outcome,
            attemptsMade := (probeLoopAux events2 1 2).attemptsMade + 1,
            sleeps := .backoff :: (probeLoopAux events2 1 2).sleeps,
            refreshes := (probeLoopAux events2 1 2).refreshes })
    ∧ delayRetryMin = 3 ∧ delayRetryMax = 5
    ∧ (check_ea_email events).attemptsMade ≤ 3
    ∧ check_ms_name events = check_ea_email events := by
  have hstep : attemptStep (events 0) = .retryFail := by
    rw [hev]
    simp [attemptStep, h429, h200]
  refine ⟨probeLoopAux_retryFail events 0 2 hstep, ?_, rfl, rfl,
    probeLoopAux_attempts_le events 0 3, rfl⟩
  intro events2 hev2
  have hstep2 : attemptStep (events2 0) = .retryExn := by
    rw [hev2]
    rfl
  exact probeLoopAux_retryExn events2 0 2 hstep2

/-- C7: when a probe exhausts all 3 attempts — none of its requests
returns HTTP 200 — it returns the failed envelope (`succeeded=false`,
status code 0, empty response dict, empty headers) after exactly 3
requests; the probe is a total function of its event trace, including
transport-exception events, so no exception passes the probe
boundary.  Both probes share the loop, so the same envelope results
for either service. -/
theorem probe_exhaustion_failed_outcome (events : Nat → NetEvent)
    (h : ∀ i, i < 3 → stepSucceeds (events i) = false) :
    (check_ea_email events).outcome.ok = false
    ∧ (check_ea_email events).outcome.metaStatus = 0
    ∧ (check_ea_email events).outcome.response = .obj []
    ∧ (check_ea_email events).outcome.metaHeaders = []
    ∧ (check_ea_email events).attemptsMade = 3
    ∧ check_ms_name events = check_ea_email events := by
  have key : ∀ fuel idx, (∀ j, j < fuel → stepSucceeds (events (idx + j)) = false) →
      (probeLoopAux events idx fuel).outcome = failedOutcome ∧
        (probeLoopAux events idx fuel).attemptsMade = fuel := by
    intro fuel
    induction fuel with
    | zero => exact fun idx _ => ⟨rfl, rfl⟩
    | succ m ih =>
      intro idx hall
      have h0 : stepSucceeds (events idx) = false := by
        have := hall 0 (Nat.succ_pos m)
        simpa using this
      have hrest := ih (idx + 1) (fun j hj => by
        have e : idx + 1 + j = idx + (j + 1) := by omega
        rw [e]
        exact hall (j + 1) (by omega))
      cases hs : attemptStep (events idx) with
      | success out => rw [stepSucceeds, hs] at h0; simp at h0
      | retryRate secs =>
          rw [probeLoopAux_retryRate events idx m secs hs]
          exact ⟨hrest.1, by simp [hrest.2]⟩
      | retryFail =>
          rw [probeLoopAux_retryFail events idx m hs]
          exact ⟨hrest.1, by simp [hrest.2]⟩
      | retryExn =>
          rw [probeLoopAux_retryExn events idx m hs]
          exact ⟨hrest.1, by simp [hrest.2]⟩
  have k3 := key 3 0 (fun j hj => by simpa using h j hj)
  have hout : (check_ea_email events).outcome = failedOutcome := k3.1
  exact ⟨by rw [hout]; rfl, by rw [hout]; rfl, by rw [hout]; rfl,
    by rw [hout]; rfl, k3.2, rfl⟩

/- ### Concrete traces and records used by the witnesses -/

/-- Trace whose every request returns HTTP 200 with the EA
"already registered" payload. -/
def eaLinkedTrace : Nat → NetEvent :=
  fun _ => .resp 200 [] (.json (.obj [("status", .bool false),
    ("message", .str "register_email_existed")]))

/-- Trace whose every request returns HTTP 200 with the Microsoft
"name available" payload. -/
def msAvailableTrace : Nat → NetEvent :=
  fun _ => .resp 200 [] (.json (.obj [("isAvailable", .bool true)]))

/-- Trace whose every request raises a transport-level exception. -/
def exnTrace : Nat → NetEvent := fun _ => NetEvent.exn

/-- Trace whose first request is rate-limited with a 2-second reset
header and whose later requests succeed with the EA positive payload. -/
def rateLimitTrace : Nat → NetEvent :=
  fun i =>
    if i == 0 then
      .resp 429 [("ratelimit-reset", "2")] (.json (.obj []))
    else
      .resp 200 [] (.json (.obj [("status", .bool false),
        ("message", .str "register_email_existed")]))

/-- Trace whose first request fails with HTTP 500 and whose later
requests raise transport-level exceptions. -/
def failStatusTrace : Nat → NetEvent :=
  fun i =>
    if i == 0 then .resp 500 [] (.raw "server error")
    else NetEvent.exn

/-- Pipeline result of `process_email` on `eaLinkedTrace` /
`msAvailableTrace`: EA linked and Microsoft available. -/
def resLinkedAvailable : PipelineResult :=
  { record := { email := "user@example.com",
                ea_check := { ok := true,
                              response := .obj [("status", .bool false),
                                ("message", .str "register_email_existed")],
                              metaStatus := 200, metaHeaders := [] },
                ea_interpret := ⟨some true, "EA message: register_email_existed"⟩,
                ms_check := some { ok := true,
                                   response := .obj [("isAvailable", .bool true)],
                                   metaStatus := 200, metaHeaders := [] },
                ms_interpret := some ⟨some true, "field:isAvailable"⟩,
                final_folder := DIR_AVAILABLE,
                note := "EA linked and Microsoft available" },
    msProbeCalls := 1 }

/-- Pipeline result of `process_email` when every Probe A attempt
raises: not linked, Probe B never invoked. -/
def resNotLinked : PipelineResult :=
  { record := { email := "user@example.com",
                ea_check := failedOutcome,
                ea_interpret := ⟨some false, "no_clear_indicator"⟩,
                ms_check := none, ms_interpret := none,
                final_folder := DIR_EA_NOT_AVAILABLE,
                note := "EA not linked or error" },
    msProbeCalls := 0 }

/-- C1 witness: the classification evaluated on a concrete run whose
probes both succeed positively. -/
theorem pipeline_bucket_classification_witness :
    resLinkedAvailable.record.final_folder = DIR_EA_NOT_AVAILABLE ↔
      (resLinkedAvailable.record.ea_check.ok = false ∨
        resLinkedAvailable.record.ea_interpret.exists' ≠ some true) :=
  (pipeline_bucket_classification "user@example.com" eaLinkedTrace
    msAvailableTrace resLinkedAvailable rfl).1

/-- C2 witness: on a concrete run whose Probe A exhausts its attempts
the pipeline performs no Probe B call and buckets `NOT_LINKED`. -/
theorem verdictA_gates_probeB_witness :
    resNotLinked.msProbeCalls = 0 ∧
      resNotLinked.record.final_folder = DIR_EA_NOT_AVAILABLE :=
  (verdictA_gates_probeB "user@example.com" exnTrace exnTrace
    resNotLinked rfl).2.2 rfl

/-- C5 witness: a 429 first attempt with `ratelimit-reset: 2` sleeps
2 seconds and retries with the remaining attempts. -/
theorem rate_limited_attempt_sleeps_and_retries_witness :
    check_ea_email rateLimitTrace =
      { outcome := (probeLoopAux rateLimitTrace 1 2).outcome,
        attemptsMade := (probeLoopAux rateLimitTrace 1 2).attemptsMade + 1,
        sleeps := .rateLimit 2 :: (probeLoopAux rateLimitTrace 1 2).sleeps,
        refreshes := (probeLoopAux rateLimitTrace 1 2).refreshes } :=
  (rate_limited_attempt_sleeps_and_retries rateLimitTrace
    [("ratelimit-reset", "2")] (.json (.obj [])) 2 rfl rfl).2.1

/-- C6 witness (amended claim): a 500 first attempt refreshes the
identity once, sleeps a backoff and retries. -/
theorem failed_status_refreshes_exception_does_not_witness :
    check_ea_email failStatusTrace =
      { outcome := (probeLoopAux failStatusTrace 1 2).outcome,
        attemptsMade := (probeLoopAux failStatusTrace 1 2).attemptsMade + 1,
        sleeps := .backoff :: (probeLoopAux failStatusTrace 1 2).sleeps,
        refreshes := (probeLoopAux failStatusTrace 1 2).refreshes + 1 } :=
  (failed_status_refreshes_exception_does_not failStatusTrace 500 []
    (.raw "server error") rfl (by decide) (by decide)).1

/-- C7 witness: three transport exceptions exhaust the probe, which
returns the zeroed failed envelope after exactly 3 requests. -/
theorem probe_exhaustion_failed_outcome_witness :
    (check_ea_email exnTrace).outcome.ok = false
    ∧ (check_ea_email exnTrace).outcome.metaStatus = 0
    ∧ (check_ea_email exnTrace).outcome.response = .obj []
    ∧ (check_ea_email exnTrace).outcome.metaHeaders = []
    ∧ (check_ea_email exnTrace).attemptsMade = 3
    ∧ check_ms_name exnTrace = check_ea_email exnTrace :=
  probe_exhaustion_failed_outcome exnTrace (fun _ _ => rfl)

/-- C8 witness (amended claim): re-running the interpreter on the
re-serialized `no_clear_indicator` verdict preserves the false
decision. -/
theorem heuristic_fallback_negative_idempotent_witness :
    (interpret_ea_response
        (eaVerdictToJVal ⟨some false, "no_clear_indicator"⟩)).map EAVerdict.exists'
      = some (some false) := by
  obtain ⟨w, hw, he⟩ := heuristic_fallback_negative_idempotent (.obj [])
    ⟨some false, "no_clear_indicator"⟩ rfl (Or.inr rfl)
  rw [hw]
  simp [he]

/-- C9 witness: the closed bucket set evaluated on a concrete
successful run. -/
theorem record_bucket_invariant_witness :
    resLinkedAvailable.record.final_folder = DIR_EA_NOT_AVAILABLE ∨
      resLinkedAvailable.record.final_folder = DIR_NOT_AVAILABLE_EMAIL ∨
      resLinkedAvailable.record.final_folder = DIR_AVAILABLE :=
  (record_bucket_invariant "user@example.com" eaLinkedTrace
    msAvailableTrace resLinkedAvailable rfl).1

/-- C10 witness (amended claim): the empty-dict verdict carries a
non-empty reason, and a concrete failed Probe A interprets to the
negative `no_clear_indicator` verdict. -/
theorem interpret_ea_no_unknown_witness :
    (⟨some false, "no_clear_indicator"⟩ : EAVerdict).reason ≠ ""
    ∧ interpret_ea_response (check_ea_email exnTrace).outcome.response =
        some ⟨some false, "no_clear_indicator"⟩ :=
  ⟨(interpret_ea_no_unknown.1 (.obj [])
      ⟨some false, "no_clear_indicator"⟩ rfl).2,
    interpret_ea_no_unknown.2.2 exnTrace rfl⟩
